import Mathlib

/-!
# Verification of the pgcat ban service (`src/ban_service.rs`)

Shallow embedding of the ban registry: the shard-partitioned ban table,
the `ban` / `unban` / `is_banned` / `get_bans` / `unban_all_replicas` /
`should_unban` operations, and theorems about them.

Modelling conventions:
* `HashMap<Address, (BanReason, NaiveDateTime)>` becomes an association
  list (`ShardMap`); `insert` replaces any existing entry for the key,
  `remove` deletes it, `len` is the list length, iteration is list order.
* `NaiveDateTime` is modelled by its `.timestamp()` value (an `Int` of
  seconds), the only projection the source ever uses.
* The wall clock (`chrono::offset::Utc::now()`) is passed explicitly as a
  `now : Int` argument to `ban` and `should_unban`.
* `Option<&ClientStats>` is modelled by a `Bool` (present or not); the
  side effects of `ban` (error-counter increment, stats-sink
  notification, address-stats error) are returned as a `BanEffects`
  record alongside the new registry state.
* Rust's panicking index `guard[address.shard]` is modelled by `List.getD`
  / `List.set`; theorems that depend on in-range behaviour carry the
  precondition `address.shard < banlist.length`, which the spec declares
  a fatal precondition of every call.
-/

namespace PgcatBan

/-- Modelled from the spec: the `Role` enum of `config.rs` (not under
`src/`): an endpoint is either the shard's `Primary` or a `Replica`. -/
inductive Role where
  | Primary : Role
  | Replica : Role
deriving DecidableEq, Repr

/-- Modelled from the spec: the `Address` struct of `config.rs` (not under
`src/`): the identity of one backend endpoint, hashable/comparable by
host, port, shard and role, exposing a shard index and a role to the
registry. -/
structure Address where
  host : Nat
  port : Nat
  shard : Nat
  role : Role
deriving DecidableEq, Repr

/-- Reasons for banning a server (from `ban_service.rs`). -/
inductive BanReason where
  | FailedHealthCheck : BanReason
  | MessageSendFailed : BanReason
  | MessageReceiveFailed : BanReason
  | FailedCheckout : BanReason
  | StatementTimeout : BanReason
  | AdminBan : Int → BanReason
deriving DecidableEq, Repr

/-- Verdicts of `should_unban` (from `ban_service.rs`). -/
inductive UnbanReason where
  | AllReplicasBanned : UnbanReason
  | BanTimeExceeded : UnbanReason
  | PrimaryBanned : UnbanReason
  | NotBanned : UnbanReason
deriving DecidableEq, Repr

/-- A ban record: `(BanReason, NaiveDateTime)`, the timestamp modelled as
seconds. -/
abbrev BanRecord := BanReason × Int

/-- One shard's `HashMap<Address, (BanReason, NaiveDateTime)>`, modelled
as an association list. -/
abbrev ShardMap := List (Address × BanRecord)

/-- `HashMap::get`: the record stored for `a`, if any. -/
def lookupBan : ShardMap → Address → Option BanRecord
  | [], _ => none
  | (k, v) :: rest, a => if k = a then some v else lookupBan rest a

/-- `HashMap::insert`: store `v` under `a`, replacing any existing entry
for `a`. -/
def mapInsert (m : ShardMap) (a : Address) (v : BanRecord) : ShardMap :=
  (a, v) :: m.filter (fun e => !decide (e.1 = a))

/-- `HashMap::remove`: drop the entry stored for `a`, if any. -/
def mapRemove (m : ShardMap) (a : Address) : ShardMap :=
  m.filter (fun e => !decide (e.1 = a))

/-- The `BanService` struct: the ban table (one `ShardMap` per shard slot)
plus the two policy values. -/
structure BanService where
  banlist : List ShardMap
  replica_to_primary_failover_enabled : Bool
  ban_time : Int
deriving DecidableEq, Repr

namespace BanService

/-- `BanService::new`: the source builds `vec![HashMap::new()]` — a single
empty shard mapping, whatever the topology — and stores the two policy
values. -/
def new (replica_to_primary_failover_enabled : Bool) (ban_time : Int) :
    BanService :=
  { banlist := [[]]
    replica_to_primary_failover_enabled := replica_to_primary_failover_enabled
    ban_time := ban_time }

/-- The reasons that make `ban` increment the address's error counter
(the first match arm of `BanService::ban`). -/
def countsAsError : BanReason → Bool
  | BanReason.FailedHealthCheck => true
  | BanReason.FailedCheckout => true
  | BanReason.MessageSendFailed => true
  | BanReason.MessageReceiveFailed => true
  | _ => false

/-- The observable side effects of one `ban` call:
`address.increment_error_count()`, `client_info.ban_error()` and
`address.stats.error()`. -/
structure BanEffects where
  errorCountIncremented : Bool
  statsSinkNotified : Bool
  addressStatsErrored : Bool
deriving DecidableEq, Repr

/-- `BanService::ban`: increment the error counter for the four failure
reasons, refuse to ban a primary, otherwise notify the stats sink (when
supplied) and insert/overwrite the ban record at the address's shard. -/
def ban (s : BanService) (address : Address) (reason : BanReason)
    (client_info : Bool) (now : Int) : BanService × BanEffects :=
  let inc := countsAsError reason
  if address.role = Role.Primary then
    (s, ⟨inc, false, false⟩)
  else
    ({ s with
        banlist := s.banlist.set address.shard
          (mapInsert (s.banlist.getD address.shard []) address (reason, now)) },
     ⟨inc, client_info, client_info⟩)

/-- `BanService::unban`: remove the address's entry from its shard's
mapping. -/
def unban (s : BanService) (address : Address) : BanService :=
  { s with
      banlist := s.banlist.set address.shard
        (mapRemove (s.banlist.getD address.shard []) address) }

/-- `BanService::is_banned`: true iff an entry exists for the address in
its shard's mapping. -/
def is_banned (s : BanService) (address : Address) : Bool :=
  match lookupBan (s.banlist.getD address.shard []) address with
  | some _ => true
  | none => false

/-- `BanService::get_bans`: the concatenation of all shards' entries. -/
def get_bans (s : BanService) : List (Address × BanRecord) :=
  s.banlist.flatten

/-- `BanService::unban_all_replicas`: clear the whole mapping of the
address's shard. -/
def unban_all_replicas (s : BanService) (address : Address) : BanService :=
  { s with banlist := s.banlist.set address.shard [] }

/-- The count of `Replica`-role endpoints configured for `shard` in the
topology (`pool_addresses[shard].iter().filter(role == Replica).count()`). -/
def replicas_available (pool_addresses : List (List Address)) (shard : Nat) :
    Nat :=
  ((pool_addresses.getD shard []).filter
    (fun addr => decide (addr.role = Role.Replica))).length

/-- The ban-time comparison of `should_unban`: an `AdminBan` uses its own
duration, every other reason uses the registry's `ban_time`. -/
def exceeded_ban_time (s : BanService) (ban_reason : BanReason)
    (timestamp now : Int) : Bool :=
  match ban_reason with
  | BanReason.AdminBan duration => decide (now - timestamp > duration)
  | _ => decide (now - timestamp > s.ban_time)

/-- The expiry phase of `should_unban` (steps 3–4): look up the address's
own record; absent ⇒ `NotBanned`; present ⇒ `BanTimeExceeded` iff the
elapsed time strictly exceeds the applicable threshold, else stay
banned. -/
def expiry_check (s : BanService) (address : Address) (now : Int) :
    Option UnbanReason :=
  match lookupBan (s.banlist.getD address.shard []) address with
  | some (ban_reason, timestamp) =>
      if exceeded_ban_time s ban_reason timestamp now then
        some UnbanReason.BanTimeExceeded
      else
        none
  | none => some UnbanReason.NotBanned

/-- `BanService::should_unban`: primary ⇒ `PrimaryBanned`; with failover
disabled, a shard ban-map size equal to the configured replica count ⇒
`AllReplicasBanned`; otherwise the expiry phase decides. -/
def should_unban (s : BanService) (pool_addresses : List (List Address))
    (address : Address) (now : Int) : Option UnbanReason :=
  if address.role = Role.Primary then
    some UnbanReason.PrimaryBanned
  else if !s.replica_to_primary_failover_enabled &&
      decide ((s.banlist.getD address.shard []).length =
        replicas_available pool_addresses address.shard) then
    some UnbanReason.AllReplicasBanned
  else
    expiry_check s address now

/-- The threshold against which `should_unban` compares the elapsed time:
an `AdminBan` carries its own duration, every other reason falls back to
the registry's `ban_time`. -/
def threshold (s : BanService) : BanReason → Int
  | BanReason.AdminBan duration => duration
  | _ => s.ban_time

/-- Shard-alignment of a suffix of the ban table starting at slot `j`:
every entry of every mapping is keyed by an address whose shard index is
the mapping's slot. Every state reachable through the registry's own
operations satisfies this, because each operation indexes the table by the
address's own shard. -/
def alignedFrom : Nat → List ShardMap → Bool
  | _, [] => true
  | j, m :: rest =>
      m.all (fun e => decide (e.1.shard = j)) && alignedFrom (j + 1) rest

/-- Shard-alignment of the whole ban table. -/
def aligned (s : BanService) : Bool := alignedFrom 0 s.banlist

/-- No entry of any shard's mapping is keyed by a `Primary`-role
address. -/
def noPrimaryEntries (s : BanService) : Bool :=
  s.banlist.all (fun m => m.all (fun e => !decide (e.1.role = Role.Primary)))

/-- One call against the registry: the three mutators with their
arguments, and the three read-only operations (which return values but
leave the table untouched). -/
inductive Op where
  | banOp (a : Address) (r : BanReason) (ci : Bool) (now : Int) : Op
  | unbanOp (a : Address) : Op
  | unbanAllOp (a : Address) : Op
  | isBannedOp (a : Address) : Op
  | getBansOp : Op
  | shouldUnbanOp (pool : List (List Address)) (a : Address) (now : Int) : Op

/-- The registry state after one call. `is_banned`, `get_bans` and
`should_unban` only read the table, so they leave the state unchanged. -/
def applyOp (s : BanService) : Op → BanService
  | Op.banOp a r ci now => (ban s a r ci now).1
  | Op.unbanOp a => unban s a
  | Op.unbanAllOp a => unban_all_replicas s a
  | Op.isBannedOp _ => s
  | Op.getBansOp => s
  | Op.shouldUnbanOp _ _ _ => s

/-- The registry state after a sequence of calls. -/
def run (s : BanService) (ops : List Op) : BanService :=
  ops.foldl applyOp s

end BanService

/-! ### Concrete scenario used by the witnesses

One shard (index 0) with a primary and two replicas, as in the spec's
testable-properties section. -/

/-- The shard's primary endpoint. -/
def addrP : Address := ⟨0, 5432, 0, Role.Primary⟩

/-- First replica endpoint of shard 0. -/
def addrR1 : Address := ⟨1, 5432, 0, Role.Replica⟩

/-- Second replica endpoint of shard 0. -/
def addrR2 : Address := ⟨2, 5432, 0, Role.Replica⟩

/-- Topology: one shard holding the primary and the two replicas. -/
def poolOneShard : List (List Address) := [[addrP, addrR1, addrR2]]

/-- A fresh registry: failover disabled, 60-second default ban time. -/
def svcFresh : BanService := BanService.new false 60

/-- The fresh registry after banning both replicas (timestamps 0). -/
def svcBothBanned : BanService :=
  (BanService.ban
    (BanService.ban svcFresh addrR1 BanReason.FailedHealthCheck false 0).1
    addrR2 BanReason.StatementTimeout false 0).1

/-- The fresh registry after an `AdminBan(30)` of the first replica at
time 0. -/
def svcAdminBanned : BanService :=
  (BanService.ban svcFresh addrR1 (BanReason.AdminBan 30) false 0).1

/-! ## Helper lemmas -/

theorem getD_set_self {α : Type} (l : List α) (i : Nat) (x d : α)
    (h : i < l.length) : (l.set i x).getD i d = x := by
  rw [List.getD_eq_getElem?_getD, List.getElem?_set_self h]
  rfl

theorem getD_set_ne {α : Type} (l : List α) (i j : Nat) (x d : α)
    (h : i ≠ j) : (l.set i x).getD j d = l.getD j d := by
  rw [List.getD_eq_getElem?_getD, List.getElem?_set_ne h,
    ← List.getD_eq_getElem?_getD]

theorem set_getD_self {α : Type} (l : List α) (i : Nat) (d : α) :
    l.set i (l.getD i d) = l := by
  induction l generalizing i with
  | nil => rfl
  | cons hd tl ih =>
    cases i with
    | zero => rfl
    | succ n => rw [List.getD_cons_succ, List.set_cons_succ, ih]

theorem getD_mem_or_default {α : Type} (l : List α) (i : Nat) (d : α) :
    l.getD i d ∈ l ∨ l.getD i d = d := by
  by_cases h : i < l.length
  · left
    rw [List.getD_eq_getElem?_getD, List.getElem?_eq_getElem h]
    exact List.getElem_mem h
  · right
    exact List.getD_eq_default l d (Nat.le_of_not_lt h)

theorem lookupBan_filter_self (m : ShardMap) (a : Address) :
    lookupBan (m.filter (fun e => !decide (e.1 = a))) a = none := by
  induction m with
  | nil => rfl
  | cons e rest ih =>
    obtain ⟨k, v⟩ := e
    by_cases hk : k = a
    · simpa [List.filter_cons, hk] using ih
    · simpa [List.filter_cons, hk, lookupBan] using ih

theorem lookupBan_filter_ne (m : ShardMap) (a b : Address) (h : b ≠ a) :
    lookupBan (m.filter (fun e => !decide (e.1 = a))) b = lookupBan m b := by
  have hab : ¬ a = b := fun hh => h hh.symm
  induction m with
  | nil => rfl
  | cons e rest ih =>
    obtain ⟨k, v⟩ := e
    by_cases hk : k = a
    · simp [List.filter_cons, hk, lookupBan, hab, ih]
    · by_cases hkb : k = b
      · simp [List.filter_cons, hk, lookupBan, hkb, h]
      · simp [List.filter_cons, hk, lookupBan, hkb, ih]

theorem filter_eq_self_of_lookup_none (m : ShardMap) (a : Address)
    (h : lookupBan m a = none) :
    m.filter (fun e => !decide (e.1 = a)) = m := by
  induction m with
  | nil => rfl
  | cons e rest ih =>
    obtain ⟨k, v⟩ := e
    by_cases hk : k = a
    · simp [lookupBan, hk] at h
    · rw [lookupBan] at h
      simp only [hk, if_false] at h
      simp [List.filter_cons, hk, ih h]

theorem mapRemove_idem (m : ShardMap) (a : Address) :
    mapRemove (mapRemove m a) a = mapRemove m a := by
  unfold mapRemove
  rw [List.filter_filter]
  exact List.filter_congr fun x _ => by cases decide (x.1 = a) <;> rfl

theorem lookupBan_mapInsert_self (m : ShardMap) (a : Address) (v : BanRecord) :
    lookupBan (mapInsert m a v) a = some v := by
  simp [mapInsert, lookupBan]

theorem filter_mapInsert_self (m : ShardMap) (a : Address) (v : BanRecord) :
    (mapInsert m a v).filter (fun e => decide (e.1 = a)) = [(a, v)] := by
  have hnil :
      (m.filter (fun e => !decide (e.1 = a))).filter
        (fun e => decide (e.1 = a)) = [] := by
    rw [List.filter_filter, List.filter_eq_nil_iff]
    intro e _
    cases hd : decide (e.1 = a) <;> simp [hd]
  simp [mapInsert, List.filter_cons, hnil]

namespace BanService

theorem exceeded_ban_time_eq_threshold (s : BanService) (r : BanReason)
    (ts now : Int) :
    exceeded_ban_time s r ts now = decide (now - ts > threshold s r) := by
  cases r <;> rfl

theorem flatten_filter_nil_of_alignedFrom (l : List ShardMap) (j : Nat)
    (a : Address) (hal : alignedFrom j l = true) (hlt : a.shard < j) :
    l.flatten.filter (fun e => decide (e.1 = a)) = [] := by
  induction l generalizing j with
  | nil => rfl
  | cons m rest ih =>
    rw [alignedFrom, Bool.and_eq_true] at hal
    obtain ⟨h1, h2⟩ := hal
    rw [List.all_eq_true] at h1
    rw [List.flatten_cons, List.filter_append]
    have hm : m.filter (fun e => decide (e.1 = a)) = [] := by
      rw [List.filter_eq_nil_iff]
      intro e he hea
      rw [decide_eq_true_eq] at hea
      have hsh := h1 e he
      rw [decide_eq_true_eq, hea] at hsh
      omega
    rw [hm, ih (j + 1) h2 (Nat.lt_succ_of_lt hlt), List.nil_append]

theorem flatten_filter_set_mapInsert (l : List ShardMap) (j i : Nat)
    (a : Address) (v : BanRecord) (hal : alignedFrom j l = true)
    (hsh : a.shard = j + i) (hi : i < l.length) :
    ((l.set i (mapInsert (l.getD i []) a v)).flatten.filter
      (fun e => decide (e.1 = a))) = [(a, v)] := by
  induction l generalizing j i with
  | nil => simp at hi
  | cons m rest ih =>
    rw [alignedFrom, Bool.and_eq_true] at hal
    obtain ⟨h1, h2⟩ := hal
    cases i with
    | zero =>
      rw [List.getD_cons_zero, List.set_cons_zero, List.flatten_cons,
        List.filter_append, filter_mapInsert_self,
        flatten_filter_nil_of_alignedFrom rest (j + 1) a h2 (by omega),
        List.append_nil]
    | succ n =>
      rw [List.getD_cons_succ, List.set_cons_succ, List.flatten_cons,
        List.filter_append]
      have hm : m.filter (fun e => decide (e.1 = a)) = [] := by
        rw [List.filter_eq_nil_iff]
        intro e he hea
        rw [decide_eq_true_eq] at hea
        rw [List.all_eq_true] at h1
        have hsh2 := h1 e he
        rw [decide_eq_true_eq, hea] at hsh2
        omega
      rw [hm, List.nil_append]
      exact ih (j + 1) n h2 (by omega) (by simpa using hi)

theorem alignedFrom_set_mapInsert (l : List ShardMap) (j i : Nat)
    (a : Address) (v : BanRecord) (hal : alignedFrom j l = true)
    (hsh : a.shard = j + i) :
    alignedFrom j (l.set i (mapInsert (l.getD i []) a v)) = true := by
  induction l generalizing j i with
  | nil => simpa using hal
  | cons m rest ih =>
    rw [alignedFrom, Bool.and_eq_true] at hal
    obtain ⟨h1, h2⟩ := hal
    cases i with
    | zero =>
      rw [List.getD_cons_zero, List.set_cons_zero, alignedFrom,
        Bool.and_eq_true]
      refine ⟨?_, h2⟩
      rw [List.all_eq_true]
      intro e he
      rw [mapInsert] at he
      rcases List.mem_cons.mp he with rfl | hef
      · rw [decide_eq_true_eq]
        show a.shard = j
        omega
      · rw [List.all_eq_true] at h1
        exact h1 e (List.mem_filter.mp hef).1
    | succ n =>
      rw [List.getD_cons_succ, List.set_cons_succ, alignedFrom,
        Bool.and_eq_true]
      exact ⟨h1, ih (j + 1) n h2 (by omega)⟩

theorem ban_fst_banlist (s : BanService) (a : Address) (r : BanReason)
    (ci : Bool) (now : Int) (h : ¬ a.role = Role.Primary) :
    (ban s a r ci now).1.banlist =
      s.banlist.set a.shard
        (mapInsert (s.banlist.getD a.shard []) a (r, now)) := by
  simp [ban, h]

/-! ## Claim theorems -/

/-- C1, counterexample: banning the primary endpoint with reason
`FailedHealthCheck` leaves the table unchanged but DOES increment the
endpoint's error counter — the increment happens before the
primary-role check, so the claim's "no side effects" part fails. -/
theorem ban_primary_error_counter_cx :
    addrP.role = Role.Primary ∧
    (ban svcFresh addrP BanReason.FailedHealthCheck false
      0).2.errorCountIncremented = true ∧
    (ban svcFresh addrP BanReason.FailedHealthCheck false 0).1 = svcFresh := by
  decide

/-- C1, amended: banning a primary endpoint, with any reason and with or
without a stats sink, leaves the registry state (hence every shard's ban
mapping) unchanged, notifies no stats sink, updates no address stats, and
keeps `is_banned` false if it was false; the error counter, however, is
incremented exactly for the four failure reasons
(`FailedHealthCheck`, `FailedCheckout`, `MessageSendFailed`,
`MessageReceiveFailed`), the same as for any endpoint. -/
theorem ban_primary_no_table_change (s : BanService) (a : Address)
    (r : BanReason) (ci : Bool) (now : Int) (h : a.role = Role.Primary) :
    (ban s a r ci now).1 = s ∧
    (ban s a r ci now).2.statsSinkNotified = false ∧
    (ban s a r ci now).2.addressStatsErrored = false ∧
    (ban s a r ci now).2.errorCountIncremented = countsAsError r ∧
    (is_banned s a = false → is_banned (ban s a r ci now).1 a = false) := by
  have hb : ban s a r ci now = (s, ⟨countsAsError r, false, false⟩) := by
    simp [ban, h]
  rw [hb]
  exact ⟨rfl, rfl, rfl, rfl, fun hf => hf⟩

/-- C1, witness: banning the primary with `StatementTimeout` and a stats
sink present leaves the fresh registry unchanged. -/
theorem ban_primary_no_table_change_w :
    (ban svcFresh addrP BanReason.StatementTimeout true 5).1 = svcFresh :=
  (ban_primary_no_table_change svcFresh addrP BanReason.StatementTimeout
    true 5 (by decide)).1

/-- C2: for a non-primary endpoint with failover disabled, `should_unban`
returns `AllReplicasBanned` whenever the shard's ban-map size equals the
shard's configured replica count (regardless of any ban record or
threshold), and otherwise proceeds to the endpoint's own ban record (the
expiry phase). -/
theorem should_unban_all_replicas_banned (s : BanService)
    (pool : List (List Address)) (a : Address) (now : Int)
    (h1 : ¬ a.role = Role.Primary)
    (h2 : s.replica_to_primary_failover_enabled = false) :
    ((s.banlist.getD a.shard []).length = replicas_available pool a.shard →
      should_unban s pool a now = some UnbanReason.AllReplicasBanned) ∧
    ((s.banlist.getD a.shard []).length ≠ replicas_available pool a.shard →
      should_unban s pool a now = expiry_check s a now) := by
  have hu : should_unban s pool a now =
      (if (s.banlist.getD a.shard []).length = replicas_available pool a.shard
        then some UnbanReason.AllReplicasBanned
        else expiry_check s a now) := by
    by_cases h3 :
        (s.banlist.getD a.shard []).length = replicas_available pool a.shard
    · simp [should_unban, h1, h2, h3]
    · simp [should_unban, h1, h2, h3]
  constructor <;> intro h3 <;> rw [hu]
  · rw [if_pos h3]
  · rw [if_neg h3]

/-- C2, witness: with both replicas of the one-shard topology banned at
time 0 (thresholds not elapsed at time 10), `should_unban` of the first
replica is `AllReplicasBanned`. -/
theorem should_unban_all_replicas_banned_w :
    should_unban svcBothBanned poolOneShard addrR1 10 =
      some UnbanReason.AllReplicasBanned :=
  (should_unban_all_replicas_banned svcBothBanned poolOneShard addrR1 10
    (by decide) (by decide)).1 (by decide)

/-- When the endpoint is not a primary and the all-replicas-banned branch
does not fire (failover enabled, or the sizes differ), `should_unban` is
decided by the expiry phase. -/
theorem should_unban_eq_expiry (s : BanService) (pool : List (List Address))
    (a : Address) (now : Int) (h1 : ¬ a.role = Role.Primary)
    (h2 : s.replica_to_primary_failover_enabled = true ∨
      (s.banlist.getD a.shard []).length ≠ replicas_available pool a.shard) :
    should_unban s pool a now = expiry_check s a now := by
  have hcond : (!s.replica_to_primary_failover_enabled &&
      decide ((s.banlist.getD a.shard []).length =
        replicas_available pool a.shard)) = false := by
    rcases h2 with h2 | h2
    · rw [h2]
      rfl
    · rw [decide_eq_false h2, Bool.and_false]
  unfold should_unban
  rw [if_neg h1, hcond]
  rfl

/-- C3: when a non-primary endpoint reaches the expiry check with a ban
record present, the threshold is the `AdminBan`'s own duration for an
admin ban and the registry's `ban_time` otherwise; the verdict is
`BanTimeExceeded` exactly when the elapsed seconds strictly exceed the
threshold and nothing (stay banned) otherwise — in particular, nothing at
exactly elapsed = threshold. -/
theorem should_unban_ban_time_threshold (s : BanService)
    (pool : List (List Address)) (a : Address) (now : Int)
    (reason : BanReason) (ts : Int)
    (h1 : ¬ a.role = Role.Primary)
    (h2 : s.replica_to_primary_failover_enabled = true ∨
      (s.banlist.getD a.shard []).length ≠ replicas_available pool a.shard)
    (h3 : lookupBan (s.banlist.getD a.shard []) a = some (reason, ts)) :
    should_unban s pool a now =
      (if now - ts > threshold s reason then some UnbanReason.BanTimeExceeded
        else none) ∧
    (now - ts = threshold s reason → should_unban s pool a now = none) := by
  have he : should_unban s pool a now =
      (if now - ts > threshold s reason then some UnbanReason.BanTimeExceeded
        else none) := by
    rw [should_unban_eq_expiry s pool a now h1 h2]
    unfold expiry_check
    rw [h3]
    show (if exceeded_ban_time s reason ts now then
        some UnbanReason.BanTimeExceeded else none) = _
    rw [exceeded_ban_time_eq_threshold]
    by_cases hgt : now - ts > threshold s reason <;> simp [hgt]
  refine ⟨he, fun heq => ?_⟩
  rw [he, if_neg ?_]
  rw [heq]
  exact lt_irrefl _

/-- C3, witness: after `AdminBan(30)` at time 0, `should_unban` is
`BanTimeExceeded` at time 31 and nothing at time 10. -/
theorem should_unban_ban_time_threshold_w :
    should_unban svcAdminBanned poolOneShard addrR1 31 =
      some UnbanReason.BanTimeExceeded ∧
    should_unban svcAdminBanned poolOneShard addrR1 10 = none := by
  constructor
  · exact ((should_unban_ban_time_threshold svcAdminBanned poolOneShard
      addrR1 31 (BanReason.AdminBan 30) 0 (by decide) (Or.inr (by decide))
      (by decide)).1).trans (by decide)
  · exact ((should_unban_ban_time_threshold svcAdminBanned poolOneShard
      addrR1 10 (BanReason.AdminBan 30) 0 (by decide) (Or.inr (by decide))
      (by decide)).1).trans (by decide)

/-- C4, counterexample: a non-primary endpoint with no ban record does NOT
always get `NotBanned` — with failover disabled and a shard whose ban-map
size (0) equals its configured replica count (0), the verdict is
`AllReplicasBanned` instead. -/
theorem should_unban_not_banned_cx :
    ¬ addrR1.role = Role.Primary ∧
    lookupBan (svcFresh.banlist.getD addrR1.shard []) addrR1 = none ∧
    should_unban svcFresh [[]] addrR1 0 =
      some UnbanReason.AllReplicasBanned ∧
    ¬ should_unban svcFresh [[]] addrR1 0 = some UnbanReason.NotBanned := by
  decide

/-- C4, amended: a non-primary endpoint with no ban record in its shard's
mapping gets `NotBanned`, provided the all-replicas-banned branch does not
fire first (failover enabled, or the shard's ban-map size differs from its
configured replica count). -/
theorem should_unban_not_banned (s : BanService) (pool : List (List Address))
    (a : Address) (now : Int) (h1 : ¬ a.role = Role.Primary)
    (h2 : s.replica_to_primary_failover_enabled = true ∨
      (s.banlist.getD a.shard []).length ≠ replicas_available pool a.shard)
    (h3 : lookupBan (s.banlist.getD a.shard []) a = none) :
    should_unban s pool a now = some UnbanReason.NotBanned := by
  rw [should_unban_eq_expiry s pool a now h1 h2]
  unfold expiry_check
  rw [h3]

/-- C4, witness: with only the first replica banned (sizes 1 ≠ 2), the
unbanned second replica gets `NotBanned`. -/
theorem should_unban_not_banned_w :
    should_unban svcAdminBanned poolOneShard addrR2 10 =
      some UnbanReason.NotBanned :=
  should_unban_not_banned svcAdminBanned poolOneShard addrR2 10 (by decide)
    (Or.inr (by decide)) (by decide)

/-- C10: with failover disabled, the all-replicas-banned branch compares
only the shard's ban-map size with the shard's configured replica count;
for a shard with zero configured replicas and an empty ban map it fires
for every non-primary endpoint of the shard — even one with no ban record
at all. -/
theorem all_replicas_check_size_only (s : BanService)
    (pool : List (List Address)) (a : Address) (now : Int)
    (h1 : s.replica_to_primary_failover_enabled = false)
    (h2 : ¬ a.role = Role.Primary)
    (h3 : replicas_available pool a.shard = 0)
    (h4 : s.banlist.getD a.shard [] = []) :
    lookupBan (s.banlist.getD a.shard []) a = none ∧
    should_unban s pool a now = some UnbanReason.AllReplicasBanned := by
  constructor
  · rw [h4]
    rfl
  · have hcond : (!s.replica_to_primary_failover_enabled &&
        decide ((s.banlist.getD a.shard []).length =
          replicas_available pool a.shard)) = true := by
      rw [h1, h4, h3]
      rfl
    unfold should_unban
    rw [if_neg h2, hcond]
    rfl

/-- C10, witness: shard 0 configured with only a primary (zero replicas)
and an empty ban table: the first replica, though never banned, gets
`AllReplicasBanned`. -/
theorem all_replicas_check_size_only_w :
    should_unban svcFresh [[addrP]] addrR1 0 =
      some UnbanReason.AllReplicasBanned :=
  (all_replicas_check_size_only svcFresh [[addrP]] addrR1 0 (by decide)
    (by decide) (by decide) (by decide)).2

/-- C5, code_bug evidence: `new` allocates exactly one (empty) shard
mapping whatever the topology — it does not even receive the shard count —
while it does store the two policy values unchanged. For any topology with
N ≥ 2 shards the table therefore has fewer slots than shards. -/
theorem new_single_shard_slot (f : Bool) (t : Int) :
    (new f t).banlist = [[]] ∧
    (new f t).banlist.length = 1 ∧
    (new f t).replica_to_primary_failover_enabled = f ∧
    (new f t).ban_time = t :=
  ⟨rfl, rfl, rfl, rfl⟩

/-- C6: after banning a non-primary endpoint with reason `r` at time
`now`, the endpoint is banned and `get_bans` holds exactly one entry for
it — reason `r`, timestamp `now` (the time captured inside the call);
banning again overwrites, so `FailedHealthCheck` then `StatementTimeout`
leaves exactly one record, with reason `StatementTimeout` and the second
call's timestamp. -/
theorem ban_lookup_consistency (s : BanService) (a : Address)
    (r : BanReason) (ci : Bool) (now n1 n2 : Int)
    (h1 : ¬ a.role = Role.Primary) (h2 : a.shard < s.banlist.length)
    (h3 : aligned s = true) :
    is_banned (ban s a r ci now).1 a = true ∧
    ((ban s a r ci now).1.get_bans.filter (fun e => decide (e.1 = a))) =
      [(a, (r, now))] ∧
    ((ban (ban s a BanReason.FailedHealthCheck ci n1).1 a
        BanReason.StatementTimeout ci n2).1.get_bans.filter
      (fun e => decide (e.1 = a))) =
      [(a, (BanReason.StatementTimeout, n2))] := by
  have core : ∀ (s' : BanService) (r' : BanReason) (n' : Int),
      a.shard < s'.banlist.length → aligned s' = true →
      ((ban s' a r' ci n').1.get_bans.filter (fun e => decide (e.1 = a))) =
        [(a, (r', n'))] := by
    intro s' r' n' h2' h3'
    rw [get_bans, ban_fst_banlist s' a r' ci n' h1]
    exact flatten_filter_set_mapInsert s'.banlist 0 a.shard a (r', n') h3'
      (by omega) h2'
  refine ⟨?_, core s r now h2 h3, ?_⟩
  · rw [is_banned, ban_fst_banlist s a r ci now h1,
      getD_set_self _ _ _ _ h2, lookupBan_mapInsert_self]
  · have hlen : a.shard <
        (ban s a BanReason.FailedHealthCheck ci n1).1.banlist.length := by
      rw [ban_fst_banlist s a BanReason.FailedHealthCheck ci n1 h1,
        List.length_set]
      exact h2
    have hal : aligned (ban s a BanReason.FailedHealthCheck ci n1).1 = true := by
      rw [aligned, ban_fst_banlist s a BanReason.FailedHealthCheck ci n1 h1]
      exact alignedFrom_set_mapInsert s.banlist 0 a.shard a _ h3 (by omega)
    exact core (ban s a BanReason.FailedHealthCheck ci n1).1
      BanReason.StatementTimeout n2 hlen hal

/-- C6, witness: banning the first replica with `FailedHealthCheck` at
time 5 makes it banned with exactly one matching record. -/
theorem ban_lookup_consistency_w :
    ((ban svcFresh addrR1 BanReason.FailedHealthCheck false
      5).1.get_bans.filter (fun e => decide (e.1 = addrR1))) =
      [(addrR1, (BanReason.FailedHealthCheck, 5))] :=
  (ban_lookup_consistency svcFresh addrR1 BanReason.FailedHealthCheck false
    5 0 0 (by decide) (by decide) (by decide)).2.1

/-- C8: `unban_all_replicas` empties the whole mapping of the endpoint's
shard — afterwards `is_banned` is false for every endpoint of that shard —
while every other shard's mapping is unchanged. -/
theorem unban_all_replicas_clears_shard (s : BanService) (a : Address) :
    (unban_all_replicas s a).banlist.getD a.shard [] = [] ∧
    (∀ j, ¬ j = a.shard →
      (unban_all_replicas s a).banlist.getD j [] = s.banlist.getD j []) ∧
    (∀ b : Address, b.shard = a.shard →
      is_banned (unban_all_replicas s a) b = false) := by
  have h1 : (unban_all_replicas s a).banlist.getD a.shard [] = [] := by
    by_cases h : a.shard < s.banlist.length
    · exact getD_set_self _ _ _ _ h
    · show (s.banlist.set a.shard []).getD a.shard [] = []
      rw [List.set_eq_of_length_le (Nat.le_of_not_lt h)]
      exact List.getD_eq_default _ _ (Nat.le_of_not_lt h)
  refine ⟨h1, ?_, ?_⟩
  · intro j hj
    exact getD_set_ne _ _ _ _ _ (fun hh => hj hh.symm)
  · intro b hb
    unfold is_banned
    rw [hb, h1]
    rfl

/-- C8, witness: after banning both replicas, `unban_all_replicas` on the
first clears the second as well. -/
theorem unban_all_replicas_clears_shard_w :
    is_banned (unban_all_replicas svcBothBanned addrR1) addrR2 = false :=
  (unban_all_replicas_clears_shard svcBothBanned addrR1).2.2 addrR2
    (by decide)

/-- C9: `unban` removes exactly the endpoint's own entry (its record is
gone, every other endpoint's lookup is unchanged, `is_banned` is false
afterwards), is a silent no-op on the whole state when the entry is
absent, and is idempotent. -/
theorem unban_removes_idempotent (s : BanService) (a : Address) :
    lookupBan ((unban s a).banlist.getD a.shard []) a = none ∧
    is_banned (unban s a) a = false ∧
    (∀ b : Address, ¬ b = a →
      lookupBan ((unban s a).banlist.getD b.shard []) b =
        lookupBan (s.banlist.getD b.shard []) b) ∧
    (lookupBan (s.banlist.getD a.shard []) a = none → unban s a = s) ∧
    unban (unban s a) a = unban s a := by
  have hbl : (unban s a).banlist =
      s.banlist.set a.shard (mapRemove (s.banlist.getD a.shard []) a) := rfl
  have hsid : ¬ a.shard < s.banlist.length → unban s a = s := by
    intro h
    show BanService.mk
      (s.banlist.set a.shard (mapRemove (s.banlist.getD a.shard []) a))
      s.replica_to_primary_failover_enabled s.ban_time = s
    rw [List.set_eq_of_length_le (Nat.le_of_not_lt h)]
  have h1 : lookupBan ((unban s a).banlist.getD a.shard []) a = none := by
    by_cases h : a.shard < s.banlist.length
    · rw [hbl, getD_set_self _ _ _ _ h]
      exact lookupBan_filter_self _ _
    · rw [hbl, List.set_eq_of_length_le (Nat.le_of_not_lt h),
        List.getD_eq_default _ _ (Nat.le_of_not_lt h)]
      rfl
  have h2 : is_banned (unban s a) a = false := by
    unfold is_banned
    rw [h1]
  have h3 : ∀ b : Address, ¬ b = a →
      lookupBan ((unban s a).banlist.getD b.shard []) b =
        lookupBan (s.banlist.getD b.shard []) b := by
    intro b hb
    by_cases hsh : b.shard = a.shard
    · rw [hbl, hsh]
      by_cases h : a.shard < s.banlist.length
      · rw [getD_set_self _ _ _ _ h]
        exact lookupBan_filter_ne _ _ _ hb
      · rw [List.set_eq_of_length_le (Nat.le_of_not_lt h)]
    · rw [hbl, getD_set_ne _ _ _ _ _ (fun hh => hsh hh.symm)]
  have hnoop : lookupBan (s.banlist.getD a.shard []) a = none →
      unban s a = s := by
    intro hn
    have hmr : mapRemove (s.banlist.getD a.shard []) a =
        s.banlist.getD a.shard [] := filter_eq_self_of_lookup_none _ _ hn
    show BanService.mk
      (s.banlist.set a.shard (mapRemove (s.banlist.getD a.shard []) a))
      s.replica_to_primary_failover_enabled s.ban_time = s
    rw [hmr, set_getD_self]
  have h5 : unban (unban s a) a = unban s a := by
    by_cases h : a.shard < s.banlist.length
    · show BanService.mk
        ((unban s a).banlist.set a.shard
          (mapRemove ((unban s a).banlist.getD a.shard []) a))
        (unban s a).replica_to_primary_failover_enabled
        (unban s a).ban_time = unban s a
      have hbb : (unban s a).banlist.set a.shard
          (mapRemove ((unban s a).banlist.getD a.shard []) a) =
          (unban s a).banlist := by
        rw [hbl, getD_set_self _ _ _ _ h, mapRemove_idem, List.set_set]
      rw [hbb]
    · rw [hsid h]
      exact hsid h
  exact ⟨h1, h2, h3, hnoop, h5⟩

/-- C9, witness: unbanning a never-banned replica leaves the fresh
registry exactly as it was. -/
theorem unban_removes_idempotent_w :
    unban svcFresh addrR1 = svcFresh :=
  (unban_removes_idempotent svcFresh addrR1).2.2.2.1 (by decide)

theorem noPrimaryEntries_iff (s : BanService) :
    noPrimaryEntries s = true ↔
      ∀ m ∈ s.banlist, ∀ e ∈ m, ¬ e.1.role = Role.Primary := by
  simp [noPrimaryEntries, List.all_eq_true]

theorem noPrimaryEntries_applyOp (s : BanService) (op : Op)
    (h : noPrimaryEntries s = true) :
    noPrimaryEntries (applyOp s op) = true := by
  rw [noPrimaryEntries_iff] at h ⊢
  cases op with
  | banOp a r ci now =>
    show ∀ m ∈ (ban s a r ci now).1.banlist, ∀ e ∈ m,
      ¬ e.1.role = Role.Primary
    by_cases hp : a.role = Role.Primary
    · have hsame : (ban s a r ci now).1 = s := by
        simp [ban, hp]
      rw [hsame]
      exact h
    · rw [ban_fst_banlist s a r ci now hp]
      intro m hm e he
      rcases List.mem_or_eq_of_mem_set hm with hm' | rfl
      · exact h m hm' e he
      · rw [mapInsert] at he
        rcases List.mem_cons.mp he with rfl | hef
        · exact hp
        · have hmem := (List.mem_filter.mp hef).1
          rcases getD_mem_or_default s.banlist a.shard [] with hd | hd
          · exact h _ hd e hmem
          · rw [hd] at hmem
            simp at hmem
  | unbanOp a =>
    show ∀ m ∈ (unban s a).banlist, ∀ e ∈ m, ¬ e.1.role = Role.Primary
    intro m hm e he
    rcases List.mem_or_eq_of_mem_set hm with hm' | rfl
    · exact h m hm' e he
    · rw [mapRemove] at he
      have hmem := (List.mem_filter.mp he).1
      rcases getD_mem_or_default s.banlist a.shard [] with hd | hd
      · exact h _ hd e hmem
      · rw [hd] at hmem
        simp at hmem
  | unbanAllOp a =>
    show ∀ m ∈ (unban_all_replicas s a).banlist, ∀ e ∈ m,
      ¬ e.1.role = Role.Primary
    intro m hm e he
    rcases List.mem_or_eq_of_mem_set hm with hm' | rfl
    · exact h m hm' e he
    · simp at he
  | isBannedOp a => exact h
  | getBansOp => exact h
  | shouldUnbanOp pool a now => exact h

/-- C7: starting from a freshly constructed registry, no sequence of
`ban`, `unban`, `unban_all_replicas`, `is_banned`, `get_bans` and
`should_unban` calls can ever put an entry keyed by a `Primary`-role
endpoint into any shard's mapping. -/
theorem no_primary_entry_invariant (f : Bool) (t : Int) (ops : List Op) :
    noPrimaryEntries (run (new f t) ops) = true := by
  have hrun : ∀ (l : List Op) (s : BanService), noPrimaryEntries s = true →
      noPrimaryEntries (run s l) = true := by
    intro l
    induction l with
    | nil => exact fun s hs => hs
    | cons op rest ih =>
      intro s hs
      rw [run, List.foldl_cons]
      exact ih (applyOp s op) (noPrimaryEntries_applyOp s op hs)
  exact hrun ops (new f t) rfl

end BanService

end PgcatBan
